import Mathlib

/-!
Verification of the platform/feature detection header
`Sources/CIO/include/macros.h` of swift-audio.

The header is a chain of preprocessor conditionals mapping toolchain
predefined symbols to capability macros.  We embed it as a pure function
`resolve : Symbols → Flags`.  A `defined(X)` test becomes a `Bool` field;
the two macros used by value in `#if` expressions (`_M_IX86_FP` and
`_M_AMD64`) become `Int` fields holding the value the preprocessor sees
(an undefined identifier evaluates to 0 in a `#if` expression).
-/

/-- The predefined toolchain symbols consulted by `macros.h`. -/
structure Symbols where
  __linux : Bool
  __unix : Bool
  __posix : Bool
  __LINUX__ : Bool
  __linux__ : Bool
  _WIN64 : Bool
  _WIN32 : Bool
  __CYGWIN32__ : Bool
  __MINGW32__ : Bool
  MACOSX : Bool
  __DARWIN__ : Bool
  __APPLE__ : Bool
  WIN_32 : Bool
  __i386__ : Bool
  i386 : Bool
  __x86__ : Bool
  __amd64 : Bool
  __amd64__ : Bool
  __x86_64 : Bool
  __x86_64__ : Bool
  _M_X64 : Bool
  __ia64__ : Bool
  _M_IA64 : Bool
  __clang__ : Bool
  __GNUC__ : Bool
  _MSC_VER : Bool
  _M_IX86_FP : Int
  _M_AMD64 : Int
  __ARM_NEON__ : Bool
  deriving DecidableEq, Repr

/-- The macros defined (and includes performed) by `macros.h`. -/
structure Flags where
  LABSOUND_PLATFORM_LINUX : Bool
  LABSOUND_PLATFORM_WINDOWS : Bool
  LABSOUND_PLATFORM_OSX : Bool
  __MACOSX_CORE__ : Bool
  LABSOUND_ARCH_32 : Bool
  LABSOUND_ARCH_64 : Bool
  LABSOUND_COMPILER_CLANG : Bool
  LABSOUND_COMPILER_GCC : Bool
  LABSOUND_COMPILER_VISUAL_STUDIO : Bool
  __SSE2__ : Bool
  inc_stdint_h : Bool
  _USE_MATH_DEFINES : Bool
  inc_math_h_msvc : Bool
  inc_cmath_msvc : Bool
  ARM_NEON_INTRINSICS : Bool
  inc_math_h_posix : Bool
  WEBAUDIO_KISSFFT : Bool
  deriving DecidableEq, Repr

/-- Guard of the first `#if` branch (Linux-like identifiers), macros.h line 5. -/
def linuxCond (s : Symbols) : Bool :=
  s.__linux || s.__unix || s.__posix || s.__LINUX__ || s.__linux__

/-- Guard of the `#elif` branch for Windows-like identifiers, macros.h line 7. -/
def windowsCond (s : Symbols) : Bool :=
  s._WIN64 || s._WIN32 || s.__CYGWIN32__ || s.__MINGW32__

/-- Guard of the `#elif` branch for macOS-like identifiers, macros.h line 9. -/
def osxCond (s : Symbols) : Bool :=
  s.MACOSX || s.__DARWIN__ || s.__APPLE__

/-- Guard of the 32-bit architecture branch, macros.h line 14. -/
def arch32Cond (s : Symbols) : Bool :=
  s.WIN_32 || s.__i386__ || s.i386 || s.__x86__

/-- Guard of the 64-bit architecture `#elif` branch, macros.h line 16. -/
def arch64Cond (s : Symbols) : Bool :=
  s.__amd64 || s.__amd64__ || s.__x86_64 || s.__x86_64__ || s._M_X64 ||
    s.__ia64__ || s._M_IA64

/-- `#if ((_M_IX86_FP) && (_M_IX86_FP >= 2)) || (_M_AMD64) || defined(_M_X64)`,
macros.h line 28. -/
def sse2Cond (s : Symbols) : Bool :=
  (decide (s._M_IX86_FP ≠ 0) && decide (s._M_IX86_FP ≥ 2)) ||
    decide (s._M_AMD64 ≠ 0) || s._M_X64

/-- The whole header, top to bottom.  Each `#elif` guard is conjoined with the
negation of the guards before it; later blocks test the macros defined by
earlier blocks. -/
def resolve (s : Symbols) : Flags :=
  let plinux := linuxCond s
  let pwin := !linuxCond s && windowsCond s
  let posx := !linuxCond s && !windowsCond s && osxCond s
  let a32 := arch32Cond s
  let a64 := !arch32Cond s && arch64Cond s
  let cclang := s.__clang__
  let cgcc := !s.__clang__ && s.__GNUC__
  let cvs := !s.__clang__ && !s.__GNUC__ && s._MSC_VER
  { LABSOUND_PLATFORM_LINUX := plinux
    LABSOUND_PLATFORM_WINDOWS := pwin
    LABSOUND_PLATFORM_OSX := posx
    __MACOSX_CORE__ := posx
    LABSOUND_ARCH_32 := a32
    LABSOUND_ARCH_64 := a64
    LABSOUND_COMPILER_CLANG := cclang
    LABSOUND_COMPILER_GCC := cgcc
    LABSOUND_COMPILER_VISUAL_STUDIO := cvs
    __SSE2__ := sse2Cond s
    inc_stdint_h := cvs
    _USE_MATH_DEFINES := cvs
    inc_math_h_msvc := cvs
    inc_cmath_msvc := cvs
    ARM_NEON_INTRINSICS := s.__ARM_NEON__
    inc_math_h_posix := posx || plinux
    WEBAUDIO_KISSFFT := plinux || posx }

/-- The symbol set with nothing defined (every identifier absent, hence every
value-bearing macro evaluating to 0 in `#if` expressions). -/
def noSymbols : Symbols :=
  { __linux := false, __unix := false, __posix := false, __LINUX__ := false
    __linux__ := false, _WIN64 := false, _WIN32 := false
    __CYGWIN32__ := false, __MINGW32__ := false, MACOSX := false
    __DARWIN__ := false, __APPLE__ := false, WIN_32 := false
    __i386__ := false, i386 := false, __x86__ := false, __amd64 := false
    __amd64__ := false, __x86_64 := false, __x86_64__ := false
    _M_X64 := false, __ia64__ := false, _M_IA64 := false, __clang__ := false
    __GNUC__ := false, _MSC_VER := false, _M_IX86_FP := 0, _M_AMD64 := 0
    __ARM_NEON__ := false }

/-- Windows-identifying symbols only. -/
def winSyms : Symbols := { noSymbols with _WIN32 := true }

/-- Linux-identifying symbol together with a Windows and a macOS one. -/
def linWinMacSyms : Symbols :=
  { noSymbols with __linux__ := true, _WIN32 := true, __APPLE__ := true }

/-- An MSVC-identifying symbol alone. -/
def msvcSyms : Symbols := { noSymbols with _MSC_VER := true }

/-- Clang and MSVC identifying symbols together (a clang-cl-like toolchain). -/
def clangMsvcSyms : Symbols :=
  { noSymbols with __clang__ := true, _MSC_VER := true }

/-- An x86_64-identifying symbol alone. -/
def amd64Syms : Symbols := { noSymbols with __x86_64__ := true }

/-- A 32-bit and a 64-bit identifier together. -/
def bothArchSyms : Symbols :=
  { noSymbols with __i386__ := true, __x86_64__ := true }

/-- Clang and GCC identifying symbols together. -/
def clangGccSyms : Symbols :=
  { noSymbols with __clang__ := true, __GNUC__ := true }

/-- An ARM-NEON-identifying symbol alone. -/
def neonSyms : Symbols := { noSymbols with __ARM_NEON__ := true }

/-- The NEON symbol together with unrelated symbols. -/
def neonLinuxSyms : Symbols :=
  { noSymbols with __ARM_NEON__ := true, __linux__ := true, __clang__ := true }

/-- The flag record with every macro unset and every include not performed. -/
def allUnsetFlags : Flags :=
  { LABSOUND_PLATFORM_LINUX := false, LABSOUND_PLATFORM_WINDOWS := false
    LABSOUND_PLATFORM_OSX := false, __MACOSX_CORE__ := false
    LABSOUND_ARCH_32 := false, LABSOUND_ARCH_64 := false
    LABSOUND_COMPILER_CLANG := false, LABSOUND_COMPILER_GCC := false
    LABSOUND_COMPILER_VISUAL_STUDIO := false, __SSE2__ := false
    inc_stdint_h := false, _USE_MATH_DEFINES := false
    inc_math_h_msvc := false, inc_cmath_msvc := false
    ARM_NEON_INTRINSICS := false, inc_math_h_posix := false
    WEBAUDIO_KISSFFT := false }

/-- Claim C1: WEBAUDIO_KISSFFT is set iff the OS family resolved to Linux-like
or macOS-like; when the family is Windows-like or none-detected it is unset. -/
theorem kissfft_iff_linux_or_osx (s : Symbols) :
    (resolve s).WEBAUDIO_KISSFFT
        = ((resolve s).LABSOUND_PLATFORM_LINUX || (resolve s).LABSOUND_PLATFORM_OSX)
    ∧ ((resolve s).LABSOUND_PLATFORM_WINDOWS = true →
        (resolve s).WEBAUDIO_KISSFFT = false)
    ∧ ((resolve s).LABSOUND_PLATFORM_LINUX = false →
       (resolve s).LABSOUND_PLATFORM_WINDOWS = false →
       (resolve s).LABSOUND_PLATFORM_OSX = false →
        (resolve s).WEBAUDIO_KISSFFT = false) := by
  cases h1 : linuxCond s <;> cases h2 : windowsCond s <;> cases h3 : osxCond s <;>
    simp [resolve, h1, h2, h3]

/-- Witness for C1 at the Windows-only input: the FFT flag stays unset. -/
theorem kissfft_iff_linux_or_osx_w :
    (resolve winSyms).WEBAUDIO_KISSFFT = false :=
  (kissfft_iff_linux_or_osx winSyms).2.1 rfl

/-- Claim C2: OS family resolution is first-match-wins with the Linux group
first; any input matching the Linux group together with the Windows or macOS
group sets PLATFORM_LINUX and leaves PLATFORM_WINDOWS and PLATFORM_OSX unset. -/
theorem os_family_first_match (s : Symbols) (h : linuxCond s = true)
    (_h2 : (windowsCond s || osxCond s) = true) :
    (resolve s).LABSOUND_PLATFORM_LINUX = true ∧
    (resolve s).LABSOUND_PLATFORM_WINDOWS = false ∧
    (resolve s).LABSOUND_PLATFORM_OSX = false := by
  simp [resolve, h]

/-- Witness for C2 at the input carrying Linux, Windows and macOS symbols. -/
theorem os_family_first_match_w :
    (resolve linWinMacSyms).LABSOUND_PLATFORM_LINUX = true ∧
    (resolve linWinMacSyms).LABSOUND_PLATFORM_WINDOWS = false ∧
    (resolve linWinMacSyms).LABSOUND_PLATFORM_OSX = false :=
  os_family_first_match linWinMacSyms rfl rfl

/-- Counterexample to C3 as stated: with both `__clang__` and `_MSC_VER`
present (a clang-cl-like toolchain), `_MSC_VER` is present yet
COMPILER_VISUAL_STUDIO is not set. -/
theorem msvc_shims_counterexample :
    clangMsvcSyms._MSC_VER = true ∧
    Flags.LABSOUND_COMPILER_VISUAL_STUDIO (resolve clangMsvcSyms) = false :=
  ⟨rfl, rfl⟩

/-- Claim C3, amended: when `_MSC_VER` is present and no Clang- or
GCC-identifying symbol is present, COMPILER_VISUAL_STUDIO is set; and each
MSVC-only compatibility shim is activated exactly when COMPILER_VISUAL_STUDIO
is set. -/
theorem msvc_shims (s : Symbols) :
    (s._MSC_VER = true → s.__clang__ = false → s.__GNUC__ = false →
      Flags.LABSOUND_COMPILER_VISUAL_STUDIO (resolve s) = true)
    ∧ (resolve s).inc_stdint_h = Flags.LABSOUND_COMPILER_VISUAL_STUDIO (resolve s)
    ∧ (resolve s)._USE_MATH_DEFINES = Flags.LABSOUND_COMPILER_VISUAL_STUDIO (resolve s)
    ∧ (resolve s).inc_math_h_msvc = Flags.LABSOUND_COMPILER_VISUAL_STUDIO (resolve s)
    ∧ (resolve s).inc_cmath_msvc = Flags.LABSOUND_COMPILER_VISUAL_STUDIO (resolve s) := by
  refine ⟨fun hm hc hg => ?_, rfl, rfl, rfl, rfl⟩
  simp [resolve, hm, hc, hg]

/-- Witness for C3 at the MSVC-only input: COMPILER_VISUAL_STUDIO is set. -/
theorem msvc_shims_w :
    Flags.LABSOUND_COMPILER_VISUAL_STUDIO (resolve msvcSyms) = true :=
  (msvc_shims msvcSyms).1 rfl rfl rfl

/-- Claim C4: the SSE2 flag is set iff `_M_IX86_FP` evaluates to at least 2,
or `_M_AMD64` evaluates to a non-zero value, or `_M_X64` is defined; the
three conditions combine as a plain logical OR. -/
theorem sse2_iff (s : Symbols) :
    (resolve s).__SSE2__ = true ↔
      2 ≤ s._M_IX86_FP ∨ s._M_AMD64 ≠ 0 ∨ s._M_X64 = true := by
  cases hx : s._M_X64 <;> simp [resolve, sse2Cond, hx]
  all_goals omega

/-- Witness for C4: the flag is set on the input whose `_M_IX86_FP` is 2. -/
theorem sse2_iff_w :
    (resolve { noSymbols with _M_IX86_FP := 2 }).__SSE2__ = true :=
  (sse2_iff { noSymbols with _M_IX86_FP := 2 }).mpr (Or.inl (by decide))

/-- Claim C5: on the input with no recognizable symbol, every output macro is
unset and no include is performed; resolution is a total function, so it
completes with this silent degradation rather than failing. -/
theorem no_symbols_all_unset : resolve noSymbols = allUnsetFlags := rfl

/-- Claim C6: word-width resolution checks the 32-bit group first, then the
64-bit group, first match wins: a 64-bit identifier with no 32-bit identifier
sets ARCH_64 only, and both together set ARCH_32 only. -/
theorem arch_first_match (s : Symbols) :
    (arch64Cond s = true → arch32Cond s = false →
      (resolve s).LABSOUND_ARCH_64 = true ∧ (resolve s).LABSOUND_ARCH_32 = false)
    ∧ (arch32Cond s = true → arch64Cond s = true →
      (resolve s).LABSOUND_ARCH_32 = true ∧ (resolve s).LABSOUND_ARCH_64 = false) := by
  constructor
  · intro h64 h32
    simp [resolve, h64, h32]
  · intro h32 h64
    simp [resolve, h64, h32]

/-- Witness for C6 at the x86_64-only input: ARCH_64 set, ARCH_32 unset. -/
theorem arch_first_match_w :
    (resolve amd64Syms).LABSOUND_ARCH_64 = true ∧
    (resolve amd64Syms).LABSOUND_ARCH_32 = false :=
  (arch_first_match amd64Syms).1 rfl rfl

/-- Claim C7: within each output group at most one flag is set (OS family,
word width, compiler identity); and whenever the Clang symbol is present
together with a GCC or MSVC symbol, only COMPILER_CLANG is set. -/
theorem at_most_one_per_group (s : Symbols) :
    ((resolve s).LABSOUND_PLATFORM_LINUX.toNat +
     (resolve s).LABSOUND_PLATFORM_WINDOWS.toNat +
     (resolve s).LABSOUND_PLATFORM_OSX.toNat ≤ 1)
    ∧ ((resolve s).LABSOUND_ARCH_32.toNat + (resolve s).LABSOUND_ARCH_64.toNat ≤ 1)
    ∧ ((resolve s).LABSOUND_COMPILER_CLANG.toNat +
       (resolve s).LABSOUND_COMPILER_GCC.toNat +
       Bool.toNat ( Flags.LABSOUND_COMPILER_VISUAL_STUDIO (resolve s)) ≤ 1)
    ∧ (s.__clang__ = true → (s.__GNUC__ = true ∨ s._MSC_VER = true) →
        (resolve s).LABSOUND_COMPILER_CLANG = true ∧
        (resolve s).LABSOUND_COMPILER_GCC = false ∧
        Flags.LABSOUND_COMPILER_VISUAL_STUDIO (resolve s) = false) := by
  refine ⟨?_, ?_, ?_, ?_⟩
  · cases h1 : linuxCond s <;> cases h2 : windowsCond s <;> cases h3 : osxCond s <;>
      simp [resolve, h1, h2, h3]
  · cases h1 : arch32Cond s <;> cases h2 : arch64Cond s <;> simp [resolve, h1, h2]
  · cases h1 : s.__clang__ <;> cases h2 : s.__GNUC__ <;> cases h3 : s._MSC_VER <;>
      simp [resolve, h1, h2, h3]
  · intro hc _
    simp [resolve, hc]

/-- Witness for C7 at the Clang-plus-GCC input: only COMPILER_CLANG is set. -/
theorem at_most_one_per_group_w :
    (resolve clangGccSyms).LABSOUND_COMPILER_CLANG = true ∧
    (resolve clangGccSyms).LABSOUND_COMPILER_GCC = false ∧
    Flags.LABSOUND_COMPILER_VISUAL_STUDIO (resolve clangGccSyms) = false :=
  (at_most_one_per_group clangGccSyms).2.2.2 rfl (Or.inl rfl)

/-- Claim C8: ARM_NEON_INTRINSICS is set iff `__ARM_NEON__` is present, and it
depends on no other input symbol: any two inputs agreeing on `__ARM_NEON__`
yield the same value for it. -/
theorem neon_iff_arm_neon (s : Symbols) :
    (resolve s).ARM_NEON_INTRINSICS = s.__ARM_NEON__
    ∧ ∀ t : Symbols, t.__ARM_NEON__ = s.__ARM_NEON__ →
        (resolve t).ARM_NEON_INTRINSICS = (resolve s).ARM_NEON_INTRINSICS :=
  ⟨rfl, fun t h => by simp [resolve, h]⟩

/-- Witness for C8: the NEON-plus-Linux-plus-Clang input produces the same
NEON flag as the NEON-only input. -/
theorem neon_iff_arm_neon_w :
    (resolve neonLinuxSyms).ARM_NEON_INTRINSICS =
      (resolve neonSyms).ARM_NEON_INTRINSICS :=
  (neon_iff_arm_neon neonSyms).2 neonLinuxSyms rfl

/-- Claim C9: resolution is a pure, deterministic function of the input
symbol set: it is the Lean function `resolve`, and equal inputs give equal
outputs, so two evaluations on one configuration agree on every flag. -/
theorem resolve_deterministic (s t : Symbols) (h : s = t) :
    resolve s = resolve t ∧ resolve s = resolve s :=
  ⟨by rw [h], rfl⟩

/-- Witness for C9 at the empty symbol set. -/
theorem resolve_deterministic_w :
    resolve noSymbols = resolve noSymbols ∧ resolve noSymbols = resolve noSymbols :=
  resolve_deterministic noSymbols noSymbols rfl

/-- Claim C10: the extra symbol `__MACOSX_CORE__` is defined exactly when
PLATFORM_OSX is set, on every input. -/
theorem macosx_core_iff_osx (s : Symbols) :
    (resolve s).__MACOSX_CORE__ = (resolve s).LABSOUND_PLATFORM_OSX :=
  rfl
